import Mathlib

/-!
Shallow embedding of the LSDJmi firmware (src/LSDJmi.ino): the byte reader,
the frame classifier, the per-channel configuration engine and the MIDI
synthesizer, as a pure step function on an explicit machine state.
Machine bytes are modelled as `Nat` (uint8_t values); MIDI output is the list
of bytes written to `midiOut` in order.
-/

namespace LSDJmi

/-- Sentinel for an unset CC slot (`const uint8_t NoCC = 0xFF`). -/
def NoCC : Nat := 0xFF

/-- The `enum ChannelCCMode` from the source. -/
inductive ChannelCCMode where
  | Single
  | Scaled
deriving DecidableEq, Repr

/-- The `struct ChannelConfig`: per-channel user settings. `ccNumbers` models the
`uint8_t ccNumbers[7]` array as a function from index to stored byte. -/
structure ChannelConfig where
  midiChannel : Nat
  ccMode : ChannelCCMode
  ccNumbers : Nat → Nat
  velocity : Nat

/-- The `enum ChannelConfigState` values, kept as the numeric codes the source
does arithmetic on: Idle = 0, CCModeAndMIDIChannel = 1, CC1..CC7 = 2..8,
Velocity = 9. -/
def ChannelConfigStateIdle : Nat := 0

def ChannelConfigStateCCModeAndMIDIChannel : Nat := 1

def ChannelConfigStateCC1 : Nat := 2

def ChannelConfigStateCC7 : Nat := 8

def ChannelConfigStateVelocity : Nat := 9

/-- The `struct ChannelState`: per-channel runtime state. -/
structure ChannelState where
  currentNote : Nat
  configState : Nat
  configStateTotalCCs : Nat
deriving DecidableEq, Repr

/-- The `enum ReceiverState` of the frame classifier. -/
inductive ReceiverState where
  | Command
  | Data
deriving DecidableEq, Repr

/-- The whole mutable state of the `LSDJmi` class instance: the two
per-channel arrays (as functions from channel index), the classifier state,
the pending `command`/`channel`/`data` registers and the global `started`
flag. -/
structure Machine where
  channels : Nat → ChannelConfig
  channelStates : Nat → ChannelState
  state : ReceiverState
  command : Nat
  channel : Nat
  data : Nat
  started : Bool

/-- Default per-channel configuration installed by the constructor. -/
def defaultConfig : ChannelConfig :=
  { midiChannel := 0
    ccMode := ChannelCCMode.Single
    ccNumbers := fun _ => NoCC
    velocity := 0x3F }

/-- The machine right after construction (static storage zero-initializes the
classifier registers; `state = ReceiverStateCommand`, `started = false`). -/
def initialMachine : Machine :=
  { channels := fun _ => defaultConfig
    channelStates := fun _ => { currentNote := 0, configState := 0, configStateTotalCCs := 0 }
    state := ReceiverState.Command
    command := 0
    channel := 0
    data := 0
    started := false }

/-- Update one channel's settings (`channels[c] = cfg`). -/
def Machine.setCfg (m : Machine) (c : Nat) (cfg : ChannelConfig) : Machine :=
  { m with channels := Function.update m.channels c cfg }

/-- Update one channel's runtime state (`channelStates[c] = s`). -/
def Machine.setSt (m : Machine) (c : Nat) (s : ChannelState) : Machine :=
  { m with channelStates := Function.update m.channelStates c s }

/-- Function `readByte`: the reader drives 8 clock pulses and samples the data line
on each; `s k` is the k-th sample (k = 0 first). If the first sample is low
the call aborts; otherwise the remaining 7 samples are shifted in
(`b <<= 1; if (read) b |= 1`) in order. -/
def readByte (s : Nat → Bool) : Option Nat :=
  if s 0 = false then none
  else
    some ((List.range 7).foldl (fun b i => 2 * b + (if s (i + 1) then 1 else 0)) 0)

/-- Numeric value of one sampled bit. -/
def bitVal (x : Bool) : Nat := if x then 1 else 0

/-- Function `stopCurrentNote`: if a note is sounding on channel `c`, emit a Note Off
(`0x80|midiChannel`, note, `0x40`) and clear `currentNote`. -/
def stopCurrentNote (m : Machine) (c : Nat) : Machine × List Nat :=
  let cs := m.channelStates c
  if cs.currentNote ≠ 0 then
    (m.setSt c { cs with currentNote := 0 },
      [0x80 ||| (m.channels c).midiChannel, cs.currentNote, 0x40])
  else (m, [])

/-- Function `resetConfigState`: force channel `c`'s configuration state to Idle. -/
def resetConfigState (m : Machine) (c : Nat) : Machine :=
  let cs := m.channelStates c
  if cs.configState ≠ ChannelConfigStateIdle then
    m.setSt c { cs with configState := ChannelConfigStateIdle }
  else m

/-- Function `stopAllNotes`: stop the current note and reset the configuration state
of every channel 0..3, in order. -/
def stopAllNotes (m : Machine) : Machine × List Nat :=
  let p0 := stopCurrentNote m 0
  let m0 := resetConfigState p0.1 0
  let p1 := stopCurrentNote m0 1
  let m1 := resetConfigState p1.1 1
  let p2 := stopCurrentNote m1 2
  let m2 := resetConfigState p2.1 2
  let p3 := stopCurrentNote m2 3
  let m3 := resetConfigState p3.1 3
  (m3, p0.2 ++ p1.2 ++ p2.2 ++ p3.2)

/-- The `case LSDJCommandN` of the dispatch: note on/off. -/
def dispatchN (m : Machine) : Machine × List Nat :=
  let m1 := resetConfigState m m.channel
  let p := stopCurrentNote m1 m.channel
  if m.data ≠ 0 then
    let m2 := p.1.setSt m.channel
      { p.1.channelStates m.channel with currentNote := m.data }
    (m2, p.2 ++
      [0x90 ||| (p.1.channels m.channel).midiChannel, m.data,
        (p.1.channels m.channel).velocity * 0x7F / 0x6F])
  else p

/-- The `case LSDJCommandX` of the dispatch: either a normal Control Change
(configuration Idle) or a step of the configuration sub-protocol. -/
def dispatchX (m : Machine) : Machine × List Nat :=
  let cfg := m.channels m.channel
  let cs := m.channelStates m.channel
  if cs.configState = ChannelConfigStateIdle then
    let value :=
      if cfg.ccMode = ChannelCCMode.Single then m.data * 0x7F / 0x6F
      else (m.data % 16) * 0x7F / 0xF
    let ccNumber :=
      if cfg.ccMode = ChannelCCMode.Single then cfg.ccNumbers 0
      else cfg.ccNumbers ((m.data / 16) % 16)
    if ccNumber ≠ NoCC then
      (m, [0xB0 ||| cfg.midiChannel, ccNumber, value])
    else (m, [])
  else if cs.configState = ChannelConfigStateCCModeAndMIDIChannel then
    let newMIDIChannel := m.data % 16
    let p :=
      if cfg.midiChannel ≠ newMIDIChannel then
        let q := stopCurrentNote m m.channel
        (q.1.setCfg m.channel
          { q.1.channels m.channel with midiChannel := newMIDIChannel }, q.2)
      else (m, ([] : List Nat))
    let totalCCs := (m.data / 16) % 16
    let m2 := p.1.setCfg m.channel
      { p.1.channels m.channel with ccNumbers := fun i => if i < 7 then NoCC else (p.1.channels m.channel).ccNumbers i }
    if totalCCs > 0 then
      let m3 := m2.setCfg m.channel
        { m2.channels m.channel with
            ccMode := if totalCCs = 1 then ChannelCCMode.Single else ChannelCCMode.Scaled }
      let m4 := m3.setSt m.channel
        { m3.channelStates m.channel with
            configStateTotalCCs := totalCCs
            configState := ChannelConfigStateCC1 + totalCCs - 1 }
      (m4, p.2)
    else
      let m3 := m2.setSt m.channel
        { m2.channelStates m.channel with
            configStateTotalCCs := totalCCs
            configState := ChannelConfigStateCC7 + 1 }
      (m3, p.2)
  else if ChannelConfigStateCC1 ≤ cs.configState ∧ cs.configState ≤ ChannelConfigStateCC7 then
    let left := cs.configState - ChannelConfigStateCC1
    let m2 := m.setCfg m.channel
      { cfg with ccNumbers :=
          Function.update cfg.ccNumbers (cs.configStateTotalCCs - 1 - left) m.data }
    if left > 0 then
      (m2.setSt m.channel { cs with configState := cs.configState - 1 }, [])
    else
      (m2.setSt m.channel { cs with configState := ChannelConfigStateVelocity }, [])
  else if cs.configState = ChannelConfigStateVelocity then
    let m2 := m.setCfg m.channel { cfg with velocity := m.data }
    (resetConfigState m2 m.channel, [])
  else (m, [])

/-- The `case LSDJCommandY` of the dispatch: enter configuration mode on data
`0x6F`, otherwise emit a Program Change. -/
def dispatchY (m : Machine) : Machine × List Nat :=
  let m1 := resetConfigState m m.channel
  if m.data = 0x6F then
    (m1.setSt m.channel
      { m1.channelStates m.channel with
          configState := ChannelConfigStateCCModeAndMIDIChannel }, [])
  else
    (m1, [0xC0 ||| (m1.channels m.channel).midiChannel, m.data])

/-- The `switch (command)` of the data dispatch. -/
def dispatch (m : Machine) : Machine × List Nat :=
  if m.command = 0 then dispatchN m
  else if m.command = 1 then dispatchX m
  else if m.command = 2 then dispatchY m
  else (m, [])

/-- One call of `check()` on a successfully read byte `b`: the command /
data classification and everything it triggers. Returns the next machine
state and the MIDI bytes written. -/
def step (m : Machine) (b : Nat) : Machine × List Nat :=
  if 0x70 ≤ b then
    if b = 0x7D then
      ({ m with started := true }, [])
    else if b = 0x7E then
      if m.started then stopAllNotes { m with started := false }
      else (m, [])
    else if b = 0x7C ∨ b = 0x7F then (m, [])
    else
      ({ m with
          channel := b % 4
          command := (b / 4) % 4
          state := ReceiverState.Data }, [])
  else if m.state = ReceiverState.Data then
    let m1 := { m with data := b, state := ReceiverState.Command }
    if m1.started then dispatch m1 else (m1, [])
  else (m, [])

/-- Run the machine over a list of received bytes, concatenating outputs. -/
def run (m : Machine) (bs : List Nat) : Machine × List Nat :=
  match bs with
  | [] => (m, [])
  | b :: rest =>
    let p := step m b
    let q := run p.1 rest
    (q.1, p.2 ++ q.2)

/-- A machine state reachable from power-on by some received byte stream. -/
def Reachable (m : Machine) : Prop :=
  ∃ bs : List Nat, (run initialMachine bs).1 = m

/-- The frame-classifier portion of the machine state: classifier state and
the pending channel/command/data registers. -/
def proj (m : Machine) : ReceiverState × Nat × Nat × Nat :=
  (m.state, m.channel, m.command, m.data)

/-- How the frame classifier alone advances on a received byte, independent
of the rest of the machine. -/
def classifierStep : ReceiverState × Nat × Nat × Nat → Nat → ReceiverState × Nat × Nat × Nat :=
  fun p b =>
    if 0x70 ≤ b then
      if b = 0x7C ∨ b = 0x7D ∨ b = 0x7E ∨ b = 0x7F then p
      else (ReceiverState.Data, b % 4, (b / 4) % 4, p.2.2.2)
    else if p.1 = ReceiverState.Data then
      (ReceiverState.Command, p.2.1, p.2.2.1, b)
    else p

/-- Safety invariant used for the array-bounds claim: the pending data byte
is always below `0x70`, and whenever a channel is in one of the CC-filling
states CC1..CC7, the announced count is between 1 and 6 and dominates the
countdown position. -/
def ChannelInv (cs : ChannelState) : Prop :=
  ChannelConfigStateCC1 ≤ cs.configState → cs.configState ≤ ChannelConfigStateCC7 →
    1 ≤ cs.configStateTotalCCs ∧ cs.configStateTotalCCs ≤ 6 ∧
      cs.configState - ChannelConfigStateCC1 ≤ cs.configStateTotalCCs - 1

/-- Machine-wide safety invariant. -/
def Inv (m : Machine) : Prop :=
  m.data < 0x70 ∧ ∀ c : Nat, ChannelInv (m.channelStates c)

@[simp] theorem setSt_channels (m : Machine) (c : Nat) (s : ChannelState) :
    (m.setSt c s).channels = m.channels := rfl

@[simp] theorem setSt_state (m : Machine) (c : Nat) (s : ChannelState) :
    (m.setSt c s).state = m.state := rfl

@[simp] theorem setSt_command (m : Machine) (c : Nat) (s : ChannelState) :
    (m.setSt c s).command = m.command := rfl

@[simp] theorem setSt_channel (m : Machine) (c : Nat) (s : ChannelState) :
    (m.setSt c s).channel = m.channel := rfl

@[simp] theorem setSt_data (m : Machine) (c : Nat) (s : ChannelState) :
    (m.setSt c s).data = m.data := rfl

@[simp] theorem setSt_started (m : Machine) (c : Nat) (s : ChannelState) :
    (m.setSt c s).started = m.started := rfl

@[simp] theorem setSt_channelStates (m : Machine) (c : Nat) (s : ChannelState) :
    (m.setSt c s).channelStates = Function.update m.channelStates c s := rfl

@[simp] theorem setCfg_channelStates (m : Machine) (c : Nat) (cfg : ChannelConfig) :
    (m.setCfg c cfg).channelStates = m.channelStates := rfl

@[simp] theorem setCfg_state (m : Machine) (c : Nat) (cfg : ChannelConfig) :
    (m.setCfg c cfg).state = m.state := rfl

@[simp] theorem setCfg_command (m : Machine) (c : Nat) (cfg : ChannelConfig) :
    (m.setCfg c cfg).command = m.command := rfl

@[simp] theorem setCfg_channel (m : Machine) (c : Nat) (cfg : ChannelConfig) :
    (m.setCfg c cfg).channel = m.channel := rfl

@[simp] theorem setCfg_data (m : Machine) (c : Nat) (cfg : ChannelConfig) :
    (m.setCfg c cfg).data = m.data := rfl

@[simp] theorem setCfg_started (m : Machine) (c : Nat) (cfg : ChannelConfig) :
    (m.setCfg c cfg).started = m.started := rfl

@[simp] theorem setCfg_channels (m : Machine) (c : Nat) (cfg : ChannelConfig) :
    (m.setCfg c cfg).channels = Function.update m.channels c cfg := rfl

theorem resetConfigState_channels (m : Machine) (c : Nat) :
    (resetConfigState m c).channels = m.channels := by
  unfold resetConfigState; dsimp only; split <;> rfl

theorem resetConfigState_state (m : Machine) (c : Nat) :
    (resetConfigState m c).state = m.state := by
  unfold resetConfigState; dsimp only; split <;> rfl

theorem resetConfigState_command (m : Machine) (c : Nat) :
    (resetConfigState m c).command = m.command := by
  unfold resetConfigState; dsimp only; split <;> rfl

theorem resetConfigState_channel (m : Machine) (c : Nat) :
    (resetConfigState m c).channel = m.channel := by
  unfold resetConfigState; dsimp only; split <;> rfl

theorem resetConfigState_data (m : Machine) (c : Nat) :
    (resetConfigState m c).data = m.data := by
  unfold resetConfigState; dsimp only; split <;> rfl

theorem resetConfigState_started (m : Machine) (c : Nat) :
    (resetConfigState m c).started = m.started := by
  unfold resetConfigState; dsimp only; split <;> rfl

theorem resetConfigState_other (m : Machine) (c c' : Nat) (h : c' ≠ c) :
    (resetConfigState m c).channelStates c' = m.channelStates c' := by
  unfold resetConfigState; dsimp only; split
  · simp [Function.update_noteq h]
  · rfl

theorem resetConfigState_self (m : Machine) (c : Nat) :
    (resetConfigState m c).channelStates c =
      { m.channelStates c with configState := ChannelConfigStateIdle } := by
  unfold resetConfigState ChannelConfigStateIdle
  dsimp only
  split
  · simp
  · next h =>
    simp only [ne_eq, Decidable.not_not, ChannelConfigStateIdle] at h
    cases hcs : m.channelStates c
    simp_all

theorem stopCurrentNote_channels (m : Machine) (c : Nat) :
    (stopCurrentNote m c).1.channels = m.channels := by
  unfold stopCurrentNote; dsimp only; split <;> rfl

theorem stopCurrentNote_state (m : Machine) (c : Nat) :
    (stopCurrentNote m c).1.state = m.state := by
  unfold stopCurrentNote; dsimp only; split <;> rfl

theorem stopCurrentNote_command (m : Machine) (c : Nat) :
    (stopCurrentNote m c).1.command = m.command := by
  unfold stopCurrentNote; dsimp only; split <;> rfl

theorem stopCurrentNote_channel (m : Machine) (c : Nat) :
    (stopCurrentNote m c).1.channel = m.channel := by
  unfold stopCurrentNote; dsimp only; split <;> rfl

theorem stopCurrentNote_data (m : Machine) (c : Nat) :
    (stopCurrentNote m c).1.data = m.data := by
  unfold stopCurrentNote; dsimp only; split <;> rfl

theorem stopCurrentNote_started (m : Machine) (c : Nat) :
    (stopCurrentNote m c).1.started = m.started := by
  unfold stopCurrentNote; dsimp only; split <;> rfl

theorem stopCurrentNote_other (m : Machine) (c c' : Nat) (h : c' ≠ c) :
    (stopCurrentNote m c).1.channelStates c' = m.channelStates c' := by
  unfold stopCurrentNote; dsimp only; split
  · simp [Function.update_noteq h]
  · rfl

theorem stopCurrentNote_self (m : Machine) (c : Nat) :
    (stopCurrentNote m c).1.channelStates c =
      { m.channelStates c with currentNote := 0 } := by
  unfold stopCurrentNote
  dsimp only
  split
  · simp
  · next h =>
    simp only [ne_eq, Decidable.not_not] at h
    cases hcs : m.channelStates c
    simp_all

theorem stopCurrentNote_out (m : Machine) (c : Nat) :
    (stopCurrentNote m c).2 =
      if (m.channelStates c).currentNote ≠ 0 then
        [0x80 ||| (m.channels c).midiChannel, (m.channelStates c).currentNote, 0x40]
      else [] := by
  unfold stopCurrentNote; dsimp only; split <;> simp_all

theorem dispatchN_proj (m : Machine) :
    proj (dispatchN m).1 = proj m ∧ (dispatchN m).1.started = m.started := by
  unfold dispatchN proj
  dsimp only
  split <;>
    simp [stopCurrentNote_state, stopCurrentNote_channel, stopCurrentNote_command,
      stopCurrentNote_data, stopCurrentNote_started, resetConfigState_state,
      resetConfigState_channel, resetConfigState_command, resetConfigState_data,
      resetConfigState_started]

theorem dispatchX_proj (m : Machine) :
    proj (dispatchX m).1 = proj m ∧ (dispatchX m).1.started = m.started := by
  unfold dispatchX proj
  dsimp only
  split_ifs <;>
    simp [stopCurrentNote_state, stopCurrentNote_channel, stopCurrentNote_command,
      stopCurrentNote_data, stopCurrentNote_started, resetConfigState_state,
      resetConfigState_channel, resetConfigState_command, resetConfigState_data,
      resetConfigState_started]

theorem dispatchY_proj (m : Machine) :
    proj (dispatchY m).1 = proj m ∧ (dispatchY m).1.started = m.started := by
  unfold dispatchY proj
  dsimp only
  split <;>
    simp [resetConfigState_state, resetConfigState_channel, resetConfigState_command,
      resetConfigState_data, resetConfigState_started]

theorem dispatch_proj (m : Machine) :
    proj (dispatch m).1 = proj m ∧ (dispatch m).1.started = m.started := by
  unfold dispatch
  split_ifs
  · exact dispatchN_proj m
  · exact dispatchX_proj m
  · exact dispatchY_proj m
  · exact ⟨rfl, rfl⟩

theorem stopAllNotes_proj (m : Machine) :
    proj (stopAllNotes m).1 = proj m ∧ (stopAllNotes m).1.started = m.started := by
  unfold stopAllNotes proj
  dsimp only
  simp [stopCurrentNote_state, stopCurrentNote_channel, stopCurrentNote_command,
    stopCurrentNote_data, stopCurrentNote_started, resetConfigState_state,
    resetConfigState_channel, resetConfigState_command, resetConfigState_data,
    resetConfigState_started]

theorem stopAllNotes_channels (m : Machine) :
    (stopAllNotes m).1.channels = m.channels := by
  unfold stopAllNotes
  dsimp only
  simp [stopCurrentNote_channels, resetConfigState_channels]

theorem stopAllNotes_out (m : Machine) :
    (stopAllNotes m).2 =
      ((if (m.channelStates 0).currentNote ≠ 0 then
          [0x80 ||| (m.channels 0).midiChannel, (m.channelStates 0).currentNote, 0x40] else []) ++
        (if (m.channelStates 1).currentNote ≠ 0 then
          [0x80 ||| (m.channels 1).midiChannel, (m.channelStates 1).currentNote, 0x40] else []) ++
        (if (m.channelStates 2).currentNote ≠ 0 then
          [0x80 ||| (m.channels 2).midiChannel, (m.channelStates 2).currentNote, 0x40] else []) ++
        (if (m.channelStates 3).currentNote ≠ 0 then
          [0x80 ||| (m.channels 3).midiChannel, (m.channelStates 3).currentNote, 0x40] else [])) := by
  unfold stopAllNotes
  dsimp only
  rw [stopCurrentNote_out, stopCurrentNote_out, stopCurrentNote_out, stopCurrentNote_out]
  rw [resetConfigState_channels, stopCurrentNote_channels,
    resetConfigState_channels, stopCurrentNote_channels,
    resetConfigState_channels, stopCurrentNote_channels]
  rw [resetConfigState_other _ _ _ (by omega), stopCurrentNote_other _ _ _ (by omega),
    resetConfigState_other _ _ _ (by omega), stopCurrentNote_other _ _ _ (by omega),
    resetConfigState_other _ _ _ (by omega), stopCurrentNote_other _ _ _ (by omega),
    resetConfigState_other _ _ _ (by omega), stopCurrentNote_other _ _ _ (by omega),
    resetConfigState_other _ _ _ (by omega), stopCurrentNote_other _ _ _ (by omega),
    resetConfigState_other _ _ _ (by omega), stopCurrentNote_other _ _ _ (by omega)]
  simp [resetConfigState_channels, stopCurrentNote_channels]

theorem stopAllNotes_st (m : Machine) (c : Nat) (h : c < 4) :
    (stopAllNotes m).1.channelStates c =
      { currentNote := 0, configState := ChannelConfigStateIdle,
        configStateTotalCCs := (m.channelStates c).configStateTotalCCs } := by
  unfold stopAllNotes
  dsimp only
  interval_cases c <;>
    simp [resetConfigState_self, resetConfigState_other, stopCurrentNote_self,
      stopCurrentNote_other]

theorem stopAllNotes_state (m : Machine) : (stopAllNotes m).1.state = m.state := by
  unfold stopAllNotes; dsimp only
  simp [stopCurrentNote_state, resetConfigState_state]

theorem stopAllNotes_channel (m : Machine) : (stopAllNotes m).1.channel = m.channel := by
  unfold stopAllNotes; dsimp only
  simp [stopCurrentNote_channel, resetConfigState_channel]

theorem stopAllNotes_command (m : Machine) : (stopAllNotes m).1.command = m.command := by
  unfold stopAllNotes; dsimp only
  simp [stopCurrentNote_command, resetConfigState_command]

theorem stopAllNotes_data (m : Machine) : (stopAllNotes m).1.data = m.data := by
  unfold stopAllNotes; dsimp only
  simp [stopCurrentNote_data, resetConfigState_data]

theorem stopAllNotes_started (m : Machine) : (stopAllNotes m).1.started = m.started := by
  unfold stopAllNotes; dsimp only
  simp [stopCurrentNote_started, resetConfigState_started]

theorem dispatch_state (m : Machine) : (dispatch m).1.state = m.state := by
  unfold dispatch dispatchN dispatchX dispatchY
  dsimp only
  split_ifs <;> simp [stopCurrentNote_state, resetConfigState_state]

theorem dispatch_channel (m : Machine) : (dispatch m).1.channel = m.channel := by
  unfold dispatch dispatchN dispatchX dispatchY
  dsimp only
  split_ifs <;> simp [stopCurrentNote_channel, resetConfigState_channel]

theorem dispatch_command (m : Machine) : (dispatch m).1.command = m.command := by
  unfold dispatch dispatchN dispatchX dispatchY
  dsimp only
  split_ifs <;> simp [stopCurrentNote_command, resetConfigState_command]

theorem dispatch_data (m : Machine) : (dispatch m).1.data = m.data := by
  unfold dispatch dispatchN dispatchX dispatchY
  dsimp only
  split_ifs <;> simp [stopCurrentNote_data, resetConfigState_data]

theorem dispatch_started (m : Machine) : (dispatch m).1.started = m.started := by
  unfold dispatch dispatchN dispatchX dispatchY
  dsimp only
  split_ifs <;> simp [stopCurrentNote_started, resetConfigState_started]

theorem step_proj (m : Machine) (b : Nat) :
    proj (step m b).1 = classifierStep (proj m) b := by
  unfold proj classifierStep step
  by_cases h70 : 0x70 ≤ b
  · by_cases h7D : b = 0x7D
    · simp [h70, h7D]
    · by_cases h7E : b = 0x7E
      · cases hs : m.started <;>
          simp [h70, h7D, h7E, hs, stopAllNotes_state, stopAllNotes_channel,
            stopAllNotes_command, stopAllNotes_data]
      · by_cases hC : b = 0x7C
        · simp [h70, h7D, h7E, hC]
        · by_cases hF : b = 0x7F
          · simp [h70, h7D, h7E, hC, hF]
          · simp [h70, h7D, h7E, hC, hF]
  · by_cases hst : m.state = ReceiverState.Data
    · cases hs : m.started <;>
        simp [h70, hst, hs, dispatch_state, dispatch_channel, dispatch_command,
          dispatch_data]
    · simp [h70, hst]

theorem step_not_started (m : Machine) (b : Nat) (h : m.started = false) (hb : b ≠ 0x7D) :
    (step m b).1.started = false ∧ (step m b).2 = [] := by
  unfold step
  by_cases h70 : 0x70 ≤ b
  · by_cases h7E : b = 0x7E
    · simp [h70, hb, h7E, h]
    · by_cases hC : b = 0x7C
      · simp [h70, hb, h7E, hC, h]
      · by_cases hF : b = 0x7F
        · simp [h70, hb, h7E, hC, hF, h]
        · simp [h70, hb, h7E, hC, hF, h]
  · by_cases hst : m.state = ReceiverState.Data
    · simp [h70, hst, h]
    · simp [h70, hst, h]

theorem ChannelInv_currentNote (cs : ChannelState) (n : Nat) (h : ChannelInv cs) :
    ChannelInv { cs with currentNote := n } := by
  unfold ChannelInv at h ⊢
  simpa using h

theorem ChannelInv_small (cs : ChannelState) (h : cs.configState < ChannelConfigStateCC1) :
    ChannelInv cs := by
  unfold ChannelInv
  intro h1 _
  omega

theorem ChannelInv_big (cs : ChannelState) (h : ChannelConfigStateCC7 < cs.configState) :
    ChannelInv cs := by
  unfold ChannelInv
  intro _ h2
  omega

theorem invSt_stopCurrentNote (m : Machine) (c : Nat)
    (h : ∀ c', ChannelInv (m.channelStates c')) (c' : Nat) :
    ChannelInv ((stopCurrentNote m c).1.channelStates c') := by
  by_cases hc : c' = c
  · subst hc
    rw [stopCurrentNote_self]
    exact ChannelInv_currentNote _ _ (h c')
  · rw [stopCurrentNote_other _ _ _ hc]
    exact h c'

theorem invSt_resetConfigState (m : Machine) (c : Nat)
    (h : ∀ c', ChannelInv (m.channelStates c')) (c' : Nat) :
    ChannelInv ((resetConfigState m c).channelStates c') := by
  by_cases hc : c' = c
  · subst hc
    rw [resetConfigState_self]
    refine ChannelInv_small _ ?_
    show ChannelConfigStateIdle < ChannelConfigStateCC1
    norm_num [ChannelConfigStateIdle, ChannelConfigStateCC1]
  · rw [resetConfigState_other _ _ _ hc]
    exact h c'

theorem invSt_dispatchN (m : Machine)
    (h : ∀ c', ChannelInv (m.channelStates c')) (c' : Nat) :
    ChannelInv ((dispatchN m).1.channelStates c') := by
  unfold dispatchN
  dsimp only
  have h1 : ∀ c', ChannelInv ((resetConfigState m m.channel).channelStates c') :=
    invSt_resetConfigState m m.channel h
  have h2 : ∀ c',
      ChannelInv ((stopCurrentNote (resetConfigState m m.channel) m.channel).1.channelStates c') :=
    invSt_stopCurrentNote _ _ h1
  split
  · simp only [setSt_channelStates, Function.update_apply]
    by_cases hc : c' = m.channel
    · simp only [hc, if_true]
      exact ChannelInv_currentNote _ _ (h2 m.channel)
    · simp only [hc, if_false]
      exact h2 c'
  · exact h2 c'

theorem invSt_dispatchY (m : Machine)
    (h : ∀ c', ChannelInv (m.channelStates c')) (c' : Nat) :
    ChannelInv ((dispatchY m).1.channelStates c') := by
  unfold dispatchY
  dsimp only
  have h1 : ∀ c', ChannelInv ((resetConfigState m m.channel).channelStates c') :=
    invSt_resetConfigState m m.channel h
  split
  · simp only [setSt_channelStates, Function.update_apply]
    by_cases hc : c' = m.channel
    · simp only [hc, if_true]
      refine ChannelInv_small _ ?_
      show ChannelConfigStateCCModeAndMIDIChannel < ChannelConfigStateCC1
      norm_num [ChannelConfigStateCCModeAndMIDIChannel, ChannelConfigStateCC1]
    · simp only [hc, if_false]
      exact h1 c'
  · exact h1 c'

theorem dispatchX_idle (m : Machine)
    (hIdle : (m.channelStates m.channel).configState = ChannelConfigStateIdle) :
    dispatchX m =
      (m,
        if (if (m.channels m.channel).ccMode = ChannelCCMode.Single then
              (m.channels m.channel).ccNumbers 0
            else (m.channels m.channel).ccNumbers ((m.data / 16) % 16)) ≠ NoCC then
          [0xB0 ||| (m.channels m.channel).midiChannel,
            (if (m.channels m.channel).ccMode = ChannelCCMode.Single then
              (m.channels m.channel).ccNumbers 0
            else (m.channels m.channel).ccNumbers ((m.data / 16) % 16)),
            (if (m.channels m.channel).ccMode = ChannelCCMode.Single then
              m.data * 0x7F / 0x6F
            else (m.data % 16) * 0x7F / 0xF)]
        else []) := by
  unfold dispatchX
  dsimp only
  rw [if_pos hIdle]
  split_ifs <;> rfl

theorem dispatchX_mode (m : Machine)
    (hMode : (m.channelStates m.channel).configState =
      ChannelConfigStateCCModeAndMIDIChannel) :
    (((dispatchX m).1.channelStates m.channel).configState =
        if 0 < (m.data / 16) % 16 then ChannelConfigStateCC1 + (m.data / 16) % 16 - 1
        else ChannelConfigStateCC7 + 1) ∧
      ((dispatchX m).1.channelStates m.channel).configStateTotalCCs = (m.data / 16) % 16 ∧
      ∀ c', c' ≠ m.channel → (dispatchX m).1.channelStates c' = m.channelStates c' := by
  have hne : (m.channelStates m.channel).configState ≠ ChannelConfigStateIdle := by
    rw [hMode]
    norm_num [ChannelConfigStateIdle, ChannelConfigStateCCModeAndMIDIChannel]
  unfold dispatchX
  dsimp only
  rw [if_neg hne, if_pos hMode]
  split_ifs with h1 h2 h3 h4 <;>
    refine ⟨by simp, by simp, fun c' hc => ?_⟩ <;>
      simp [Function.update_noteq hc, stopCurrentNote_other _ _ _ hc]

theorem dispatchX_cc (m : Machine)
    (h2 : ChannelConfigStateCC1 ≤ (m.channelStates m.channel).configState)
    (h8 : (m.channelStates m.channel).configState ≤ ChannelConfigStateCC7) :
    dispatchX m =
      ((m.setCfg m.channel
          { m.channels m.channel with
              ccNumbers :=
                Function.update (m.channels m.channel).ccNumbers
                  ((m.channelStates m.channel).configStateTotalCCs - 1 -
                    ((m.channelStates m.channel).configState - ChannelConfigStateCC1))
                  m.data }).setSt
        m.channel
        { m.channelStates m.channel with
            configState :=
              if ChannelConfigStateCC1 < (m.channelStates m.channel).configState then
                (m.channelStates m.channel).configState - 1
              else ChannelConfigStateVelocity },
        []) := by
  have hne0 : (m.channelStates m.channel).configState ≠ ChannelConfigStateIdle := by
    unfold ChannelConfigStateIdle
    unfold ChannelConfigStateCC1 at h2
    omega
  have hne1 : (m.channelStates m.channel).configState ≠
      ChannelConfigStateCCModeAndMIDIChannel := by
    unfold ChannelConfigStateCCModeAndMIDIChannel
    unfold ChannelConfigStateCC1 at h2
    omega
  unfold dispatchX
  dsimp only
  rw [if_neg hne0, if_neg hne1, if_pos ⟨h2, h8⟩]
  unfold ChannelConfigStateCC1 at *
  split_ifs with hL hR
  · rfl
  · omega
  · omega
  · rfl

theorem dispatchX_vel (m : Machine)
    (hVel : (m.channelStates m.channel).configState = ChannelConfigStateVelocity) :
    dispatchX m =
      (resetConfigState
        (m.setCfg m.channel { m.channels m.channel with velocity := m.data }) m.channel,
        []) := by
  have hne0 : (m.channelStates m.channel).configState ≠ ChannelConfigStateIdle := by
    rw [hVel]; norm_num [ChannelConfigStateIdle, ChannelConfigStateVelocity]
  have hne1 : (m.channelStates m.channel).configState ≠
      ChannelConfigStateCCModeAndMIDIChannel := by
    rw [hVel]
    norm_num [ChannelConfigStateCCModeAndMIDIChannel, ChannelConfigStateVelocity]
  have hne2 : ¬(ChannelConfigStateCC1 ≤ (m.channelStates m.channel).configState ∧
      (m.channelStates m.channel).configState ≤ ChannelConfigStateCC7) := by
    rw [hVel]
    norm_num [ChannelConfigStateCC1, ChannelConfigStateCC7, ChannelConfigStateVelocity]
  unfold dispatchX
  dsimp only
  rw [if_neg hne0, if_neg hne1, if_neg hne2, if_pos hVel]

theorem dispatchX_other (m : Machine)
    (hne0 : (m.channelStates m.channel).configState ≠ ChannelConfigStateIdle)
    (hne1 : (m.channelStates m.channel).configState ≠
      ChannelConfigStateCCModeAndMIDIChannel)
    (hne2 : ¬(ChannelConfigStateCC1 ≤ (m.channelStates m.channel).configState ∧
      (m.channelStates m.channel).configState ≤ ChannelConfigStateCC7))
    (hne3 : (m.channelStates m.channel).configState ≠ ChannelConfigStateVelocity) :
    dispatchX m = (m, []) := by
  unfold dispatchX
  dsimp only
  rw [if_neg hne0, if_neg hne1, if_neg hne2, if_neg hne3]

theorem invSt_dispatchX (m : Machine) (hd : m.data < 0x70)
    (h : ∀ c', ChannelInv (m.channelStates c')) (c' : Nat) :
    ChannelInv ((dispatchX m).1.channelStates c') := by
  by_cases hIdle : (m.channelStates m.channel).configState = ChannelConfigStateIdle
  · rw [dispatchX_idle m hIdle]
    exact h c'
  by_cases hMode : (m.channelStates m.channel).configState =
      ChannelConfigStateCCModeAndMIDIChannel
  · obtain ⟨hcs, ht, hother⟩ := dispatchX_mode m hMode
    by_cases hc : c' = m.channel
    · subst hc
      unfold ChannelInv
      rw [hcs, ht]
      unfold ChannelConfigStateCC1 ChannelConfigStateCC7
      split_ifs with hT
      · intro hlo hhi
        omega
      · intro hlo hhi
        omega
    · rw [hother c' hc]
      exact h c'
  by_cases hCC : ChannelConfigStateCC1 ≤ (m.channelStates m.channel).configState ∧
      (m.channelStates m.channel).configState ≤ ChannelConfigStateCC7
  · rw [dispatchX_cc m hCC.1 hCC.2]
    simp only [setSt_channelStates, Function.update_apply]
    by_cases hc : c' = m.channel
    · simp only [hc, if_true]
      have hold := h m.channel hCC.1 hCC.2
      unfold ChannelConfigStateCC1 ChannelConfigStateCC7 at hCC
      unfold ChannelConfigStateCC1 at hold
      unfold ChannelInv ChannelConfigStateCC1 ChannelConfigStateCC7
        ChannelConfigStateVelocity
      dsimp only
      split_ifs with hL
      · intro hlo hhi
        exact ⟨hold.1, hold.2.1, by omega⟩
      · intro hlo hhi
        omega
    · simp only [hc, if_false, setCfg_channelStates]
      exact h c'
  by_cases hVel : (m.channelStates m.channel).configState = ChannelConfigStateVelocity
  · rw [dispatchX_vel m hVel]
    refine invSt_resetConfigState _ _ ?_ c'
    intro c''
    simp only [setCfg_channelStates]
    exact h c''
  · rw [dispatchX_other m hIdle hMode hCC hVel]
    exact h c'

theorem invSt_stopAllNotes (m : Machine)
    (h : ∀ c', ChannelInv (m.channelStates c')) (c' : Nat) :
    ChannelInv ((stopAllNotes m).1.channelStates c') := by
  unfold stopAllNotes
  dsimp only
  exact invSt_resetConfigState _ _
    (invSt_stopCurrentNote _ _
      (invSt_resetConfigState _ _
        (invSt_stopCurrentNote _ _
          (invSt_resetConfigState _ _
            (invSt_stopCurrentNote _ _
              (invSt_resetConfigState _ _
                (invSt_stopCurrentNote _ _ h)) )) )) ) c'

theorem inv_step (m : Machine) (b : Nat) (h : Inv m) : Inv (step m b).1 := by
  obtain ⟨hdata, hst⟩ := h
  unfold step
  by_cases h70 : 0x70 ≤ b
  · rw [if_pos h70]
    by_cases h7D : b = 0x7D
    · rw [if_pos h7D]
      exact ⟨hdata, hst⟩
    · rw [if_neg h7D]
      by_cases h7E : b = 0x7E
      · rw [if_pos h7E]
        by_cases hs : m.started = true
        · rw [if_pos hs]
          refine ⟨?_, invSt_stopAllNotes _ hst⟩
          rw [stopAllNotes_data]
          exact hdata
        · rw [if_neg hs]
          exact ⟨hdata, hst⟩
      · rw [if_neg h7E]
        by_cases h7CF : b = 0x7C ∨ b = 0x7F
        · rw [if_pos h7CF]
          exact ⟨hdata, hst⟩
        · rw [if_neg h7CF]
          exact ⟨hdata, hst⟩
  · rw [if_neg h70]
    by_cases hrs : m.state = ReceiverState.Data
    · rw [if_pos hrs]
      dsimp only
      set m1 : Machine := { m with data := b, state := ReceiverState.Command } with hm1
      have hd1 : m1.data < 0x70 := by
        have hb : m1.data = b := rfl
        omega
      have hst1 : ∀ c', ChannelInv (m1.channelStates c') := hst
      by_cases hs : m1.started = true
      · rw [if_pos hs]
        refine ⟨?_, ?_⟩
        · rw [dispatch_data]
          exact hd1
        · intro c'
          unfold dispatch
          split_ifs
          · exact invSt_dispatchN m1 hst1 c'
          · exact invSt_dispatchX m1 hd1 hst1 c'
          · exact invSt_dispatchY m1 hst1 c'
          · exact hst1 c'
      · rw [if_neg hs]
        exact ⟨hd1, hst1⟩
    · rw [if_neg hrs]
      exact ⟨hdata, hst⟩

theorem inv_initial : Inv initialMachine := by
  constructor
  · decide
  · intro c
    unfold ChannelInv initialMachine ChannelConfigStateCC1 ChannelConfigStateCC7
    intro h1 h2
    simp at h1

theorem inv_run (m : Machine) (bs : List Nat) (h : Inv m) : Inv (run m bs).1 := by
  induction bs generalizing m with
  | nil => exact h
  | cons b rest ih =>
    unfold run
    dsimp only
    exact ih _ (inv_step m b h)

theorem inv_reachable (m : Machine) (h : Reachable m) : Inv m := by
  obtain ⟨bs, hbs⟩ := h
  rw [← hbs]
  exact inv_run _ _ inv_initial

theorem step_start (m : Machine) : step m 0x7D = ({ m with started := true }, []) := by
  unfold step
  rw [if_pos (by norm_num), if_pos rfl]

theorem step_stop_started (m : Machine) (h : m.started = true) :
    step m 0x7E = stopAllNotes { m with started := false } := by
  unfold step
  rw [if_pos (by norm_num), if_neg (by norm_num), if_pos rfl, if_pos h]

theorem step_stop_stopped (m : Machine) (h : m.started = false) :
    step m 0x7E = (m, []) := by
  unfold step
  rw [if_pos (by norm_num), if_neg (by norm_num), if_pos rfl,
    if_neg (by rw [h]; norm_num)]

theorem step_data (m : Machine) (b : Nat) (h70 : b < 0x70)
    (hD : m.state = ReceiverState.Data) (hS : m.started = true) :
    step m b = dispatch { m with data := b, state := ReceiverState.Command } := by
  unfold step
  rw [if_neg (by omega), if_pos hD]
  dsimp only
  rw [if_pos
    (show ({ m with data := b, state := ReceiverState.Command } : Machine).started = true
      from hS)]

theorem dispatchN_spec (m : Machine) :
    (dispatchN m).2 =
        (if (m.channelStates m.channel).currentNote ≠ 0 then
          [0x80 ||| (m.channels m.channel).midiChannel,
            (m.channelStates m.channel).currentNote, 0x40]
        else []) ++
        (if m.data ≠ 0 then
          [0x90 ||| (m.channels m.channel).midiChannel, m.data,
            (m.channels m.channel).velocity * 0x7F / 0x6F]
        else []) ∧
      ((dispatchN m).1.channelStates m.channel).currentNote = m.data ∧
      (dispatchN m).1.channels = m.channels ∧
      ((dispatchN m).1.channelStates m.channel).configState = ChannelConfigStateIdle ∧
      ∀ c', c' ≠ m.channel → (dispatchN m).1.channelStates c' = m.channelStates c' := by
  unfold dispatchN
  dsimp only
  by_cases hd : m.data ≠ 0
  · rw [if_pos hd]
    refine ⟨?_, ?_, ?_, ?_, ?_⟩
    · rw [stopCurrentNote_out, resetConfigState_channels, resetConfigState_self,
        stopCurrentNote_channels, resetConfigState_channels]
      simp [hd]
    · simp
    · rw [setSt_channels, stopCurrentNote_channels, resetConfigState_channels]
    · simp only [setSt_channelStates, Function.update_same]
      rw [show ({ (stopCurrentNote (resetConfigState m m.channel) m.channel).1.channelStates
          m.channel with currentNote := m.data } : ChannelState).configState =
        ((stopCurrentNote (resetConfigState m m.channel) m.channel).1.channelStates
          m.channel).configState from rfl]
      rw [stopCurrentNote_self, resetConfigState_self]
    · intro c' hc
      simp only [setSt_channelStates, Function.update_noteq hc]
      rw [stopCurrentNote_other _ _ _ hc, resetConfigState_other _ _ _ hc]
  · rw [if_neg hd]
    have hd0 : m.data = 0 := by omega
    refine ⟨?_, ?_, ?_, ?_, ?_⟩
    · rw [stopCurrentNote_out, resetConfigState_channels, resetConfigState_self]
      simp [hd0]
    · rw [stopCurrentNote_self, hd0]
    · rw [stopCurrentNote_channels, resetConfigState_channels]
    · rw [stopCurrentNote_self, resetConfigState_self]
    · intro c' hc
      rw [stopCurrentNote_other _ _ _ hc, resetConfigState_other _ _ _ hc]

theorem dispatchY_spec (m : Machine) (h6F : m.data ≠ 0x6F) :
    (dispatchY m).2 = [0xC0 ||| (m.channels m.channel).midiChannel, m.data] ∧
      (dispatchY m).1.channels = m.channels ∧
      ((dispatchY m).1.channelStates m.channel).configState = ChannelConfigStateIdle ∧
      ((dispatchY m).1.channelStates m.channel).currentNote =
        (m.channelStates m.channel).currentNote ∧
      ∀ c', c' ≠ m.channel → (dispatchY m).1.channelStates c' = m.channelStates c' := by
  unfold dispatchY
  dsimp only
  rw [if_neg h6F]
  refine ⟨by rw [resetConfigState_channels], by rw [resetConfigState_channels],
    by rw [resetConfigState_self], by rw [resetConfigState_self],
    fun c' hc => by rw [resetConfigState_other _ _ _ hc]⟩

theorem run_not_started (m : Machine) (bs : List Nat) (h : m.started = false)
    (hbs : ∀ b ∈ bs, b ≠ 0x7D) :
    (run m bs).2 = [] ∧ (run m bs).1.started = false := by
  induction bs generalizing m with
  | nil => exact ⟨rfl, h⟩
  | cons b rest ih =>
    unfold run
    dsimp only
    obtain ⟨hs, ho⟩ := step_not_started m b h (hbs b (List.mem_cons_self b rest))
    obtain ⟨ih1, ih2⟩ := ih (step m b).1 hs fun b' hb' => hbs b' (List.mem_cons_of_mem b hb')
    exact ⟨by rw [ho, ih1, List.nil_append], ih2⟩

/-- C1 counterexample. After Start, entering configuration on channel 0 and
announcing a CC count of 2 (byte `0x25`), the machine is in CC-filling state
CC2 (code 3) with `configStateTotalCCs = 2`; the claim says the first CC byte
(k = 1, m = 2) is stored at slot m - k = 1, but after receiving the first CC
byte `0x42` the code has stored it at slot 0 while slot 1 is still unset. -/
theorem C1_counterexample :
    ((run initialMachine [0x7D, 0x78, 0x6F, 0x74, 0x25]).1.channelStates 0).configState =
        ChannelConfigStateCC1 + 1 ∧
      ((run initialMachine
        [0x7D, 0x78, 0x6F, 0x74, 0x25]).1.channelStates 0).configStateTotalCCs = 2 ∧
      ((run initialMachine
        [0x7D, 0x78, 0x6F, 0x74, 0x25, 0x74, 0x42]).1.channels 0).ccNumbers 1 = NoCC ∧
      ((run initialMachine
        [0x7D, 0x78, 0x6F, 0x74, 0x25, 0x74, 0x42]).1.channels 0).ccNumbers 0 = 0x42 := by
  decide

/-- C1 (amended): in a CC-filling state, the incoming CC data byte `d` is the
k-th byte of the sub-sequence with k = totalCCs - (configState - CC1), and it
is stored at slot k - 1 (lowest index first), so slot 0 holds the
first-received CC number and slot m-1 the last-received one; the state then
counts down, reaching the velocity state after the last byte. -/
theorem C1_thm (m : Machine) (d : Nat) (h1 : m.state = ReceiverState.Data)
    (h2 : m.started = true) (h3 : d < 0x70) (h4 : m.command = 1)
    (h5 : ChannelConfigStateCC1 ≤ (m.channelStates m.channel).configState)
    (h6 : (m.channelStates m.channel).configState ≤ ChannelConfigStateCC7) :
    ((step m d).1.channels m.channel).ccNumbers =
        Function.update (m.channels m.channel).ccNumbers
          ((m.channelStates m.channel).configStateTotalCCs -
              ((m.channelStates m.channel).configState - ChannelConfigStateCC1) - 1) d ∧
      ((step m d).1.channelStates m.channel).configState =
        (if ChannelConfigStateCC1 < (m.channelStates m.channel).configState then
          (m.channelStates m.channel).configState - 1
        else ChannelConfigStateVelocity) := by
  rw [step_data m d h3 h1 h2]
  unfold dispatch
  rw [if_neg (show ¬({ m with data := d, state := ReceiverState.Command } :
        Machine).command = 0 from by simp [h4]),
    if_pos (show ({ m with data := d, state := ReceiverState.Command } :
        Machine).command = 1 from h4)]
  rw [dispatchX_cc ({ m with data := d, state := ReceiverState.Command } : Machine)
    (show _ from h5) (show _ from h6)]
  constructor
  · simp only [setSt_channels, setCfg_channels, Function.update_same]
    rw [show (m.channelStates m.channel).configStateTotalCCs - 1 -
        ((m.channelStates m.channel).configState - ChannelConfigStateCC1) =
      (m.channelStates m.channel).configStateTotalCCs -
        ((m.channelStates m.channel).configState - ChannelConfigStateCC1) - 1 from by
          omega]
  · simp only [setSt_channelStates, Function.update_same]

/-- C1 witness: the amended theorem applied in the concrete CC2 state reached
by announcing 2 CCs on channel 0, receiving the byte 0x42. -/
theorem C1_witness :
    (run initialMachine [0x7D, 0x78, 0x6F, 0x74, 0x25, 0x74]).1.state = ReceiverState.Data ∧
      (run initialMachine [0x7D, 0x78, 0x6F, 0x74, 0x25, 0x74]).1.started = true ∧
      (0x42 : Nat) < 0x70 ∧
      (run initialMachine [0x7D, 0x78, 0x6F, 0x74, 0x25, 0x74]).1.command = 1 ∧
      ChannelConfigStateCC1 ≤
        ((run initialMachine [0x7D, 0x78, 0x6F, 0x74, 0x25, 0x74]).1.channelStates
          (run initialMachine [0x7D, 0x78, 0x6F, 0x74, 0x25, 0x74]).1.channel).configState ∧
      ((run initialMachine [0x7D, 0x78, 0x6F, 0x74, 0x25, 0x74]).1.channelStates
          (run initialMachine [0x7D, 0x78, 0x6F, 0x74, 0x25, 0x74]).1.channel).configState ≤
        ChannelConfigStateCC7 ∧
      (((step (run initialMachine [0x7D, 0x78, 0x6F, 0x74, 0x25, 0x74]).1 0x42).1.channels
            (run initialMachine [0x7D, 0x78, 0x6F, 0x74, 0x25, 0x74]).1.channel).ccNumbers =
          Function.update
            ((run initialMachine [0x7D, 0x78, 0x6F, 0x74, 0x25, 0x74]).1.channels
              (run initialMachine [0x7D, 0x78, 0x6F, 0x74, 0x25, 0x74]).1.channel).ccNumbers
            (((run initialMachine [0x7D, 0x78, 0x6F, 0x74, 0x25, 0x74]).1.channelStates
                  (run initialMachine
                    [0x7D, 0x78, 0x6F, 0x74, 0x25, 0x74]).1.channel).configStateTotalCCs -
                (((run initialMachine [0x7D, 0x78, 0x6F, 0x74, 0x25, 0x74]).1.channelStates
                    (run initialMachine
                      [0x7D, 0x78, 0x6F, 0x74, 0x25, 0x74]).1.channel).configState -
                  ChannelConfigStateCC1) - 1) 0x42 ∧
        ((step (run initialMachine [0x7D, 0x78, 0x6F, 0x74, 0x25, 0x74]).1 0x42).1.channelStates
            (run initialMachine [0x7D, 0x78, 0x6F, 0x74, 0x25, 0x74]).1.channel).configState =
          (if ChannelConfigStateCC1 <
              ((run initialMachine [0x7D, 0x78, 0x6F, 0x74, 0x25, 0x74]).1.channelStates
                (run initialMachine [0x7D, 0x78, 0x6F, 0x74, 0x25, 0x74]).1.channel).configState
            then
            ((run initialMachine [0x7D, 0x78, 0x6F, 0x74, 0x25, 0x74]).1.channelStates
                (run initialMachine [0x7D, 0x78, 0x6F, 0x74, 0x25, 0x74]).1.channel).configState - 1
          else ChannelConfigStateVelocity)) :=
  ⟨by decide, by decide, by decide, by decide, by decide, by decide,
    C1_thm (run initialMachine [0x7D, 0x78, 0x6F, 0x74, 0x25, 0x74]).1 0x42 (by decide) (by decide)
      (by decide) (by decide) (by decide) (by decide)⟩

/-- C2 counterexample. With every sample high, the reader returns 0x7F: only
7 bits are stored, and bit 7 of the returned byte is 0 even though the first
sampled bit was 1, so the first sample is not shifted into the byte. -/
theorem C2_counterexample :
    readByte (fun _ => true) = some 127 ∧ Nat.testBit 127 7 = false := by
  decide

/-- C2 (amended): when the first sample is high, the call succeeds and only
the 7 subsequent samples are shifted into the returned byte,
most-significant bit first (the k-th of them has weight 2 to the 7 - k); the
first sample serves solely as the data-ready flag, so the result is below
128 and its top bit is always clear. -/
theorem C2_thm (s : Nat → Bool) (h : s 0 = true) :
    readByte s =
        some (64 * bitVal (s 1) + 32 * bitVal (s 2) + 16 * bitVal (s 3) +
          8 * bitVal (s 4) + 4 * bitVal (s 5) + 2 * bitVal (s 6) + bitVal (s 7)) ∧
      64 * bitVal (s 1) + 32 * bitVal (s 2) + 16 * bitVal (s 3) +
          8 * bitVal (s 4) + 4 * bitVal (s 5) + 2 * bitVal (s 6) + bitVal (s 7) < 128 := by
  constructor
  · unfold readByte
    rw [if_neg (by simp [h])]
    show some ((List.range 7).foldl (fun b i => 2 * b + bitVal (s (i + 1))) 0) = _
    norm_num [List.range_succ]
    ring
  · have hb : ∀ x : Bool, bitVal x ≤ 1 := by
      intro x
      cases x <;> simp [bitVal]
    have hb1 := hb (s 1)
    have hb2 := hb (s 2)
    have hb3 := hb (s 3)
    have hb4 := hb (s 4)
    have hb5 := hb (s 5)
    have hb6 := hb (s 6)
    have hb7 := hb (s 7)
    omega

/-- C2 witness: the amended reader theorem at the all-high sample stream. -/
theorem C2_witness :
    (fun _ : Nat => true) 0 = true ∧
      (readByte (fun _ : Nat => true) =
          some (64 * bitVal ((fun _ : Nat => true) 1) + 32 * bitVal ((fun _ : Nat => true) 2) +
            16 * bitVal ((fun _ : Nat => true) 3) + 8 * bitVal ((fun _ : Nat => true) 4) +
            4 * bitVal ((fun _ : Nat => true) 5) + 2 * bitVal ((fun _ : Nat => true) 6) +
            bitVal ((fun _ : Nat => true) 7)) ∧
        64 * bitVal ((fun _ : Nat => true) 1) + 32 * bitVal ((fun _ : Nat => true) 2) +
            16 * bitVal ((fun _ : Nat => true) 3) + 8 * bitVal ((fun _ : Nat => true) 4) +
            4 * bitVal ((fun _ : Nat => true) 5) + 2 * bitVal ((fun _ : Nat => true) 6) +
            bitVal ((fun _ : Nat => true) 7) < 128) :=
  ⟨rfl, C2_thm (fun _ => true) rfl⟩

/-- C3 counterexample. Channel 0 is mid-configuration (state non-Idle) with
the transport already started; processing a Start byte (0x7D) leaves the
configuration state untouched, contradicting the claim that Start forces it
to Idle. -/
theorem C3_counterexample :
    ((run initialMachine [0x7D, 0x78, 0x6F]).1.channelStates 0).configState ≠
        ChannelConfigStateIdle ∧
      (run initialMachine [0x7D, 0x78, 0x6F]).1.started = true ∧
      ((step (run initialMachine [0x7D, 0x78, 0x6F]).1 0x7D).1.channelStates 0).configState ≠
        ChannelConfigStateIdle := by
  decide

/-- C3 (amended): a Note event, or a ProgramChange event with data other than
0x6F, dispatched on a channel forces that channel's configuration state to
Idle before normal processing, and a Stop byte received while started forces
every channel's configuration state to Idle; a Start byte, however, leaves
every channel's configuration state unchanged. -/
theorem C3_thm (m : Machine) (d : Nat) (h1 : m.state = ReceiverState.Data)
    (h2 : m.started = true) (h3 : d < 0x70)
    (h4 : m.command = 0 ∨ (m.command = 2 ∧ d ≠ 0x6F)) :
    ((step m d).1.channelStates m.channel).configState = ChannelConfigStateIdle ∧
      (∀ c, c < 4 →
        ((step m 0x7E).1.channelStates c).configState = ChannelConfigStateIdle) ∧
      ∀ c, ((step m 0x7D).1.channelStates c).configState =
        (m.channelStates c).configState := by
  refine ⟨?_, ?_, ?_⟩
  · rw [step_data m d h3 h1 h2]
    unfold dispatch
    rcases h4 with h4 | ⟨h4, h6F⟩
    · rw [if_pos (show ({ m with data := d, state := ReceiverState.Command } :
          Machine).command = 0 from h4)]
      exact (dispatchN_spec _).2.2.2.1
    · rw [if_neg (show ¬({ m with data := d, state := ReceiverState.Command } :
            Machine).command = 0 from by simp [h4]),
        if_neg (show ¬({ m with data := d, state := ReceiverState.Command } :
            Machine).command = 1 from by simp [h4]),
        if_pos (show ({ m with data := d, state := ReceiverState.Command } :
            Machine).command = 2 from h4)]
      exact (dispatchY_spec _ (show ({ m with data := d, state := ReceiverState.Command } :
        Machine).data ≠ 0x6F from h6F)).2.2.1
  · intro c hc
    rw [step_stop_started m h2, stopAllNotes_st _ c hc]
  · intro c
    rw [step_start m]

/-- C3 witness: the amended theorem at a concrete machine with channel 0
mid-configuration and a pending Note command, dispatching note byte 0x3C. -/
theorem C3_witness :
    (run initialMachine [0x7D, 0x78, 0x6F, 0x70]).1.state = ReceiverState.Data ∧
      (run initialMachine [0x7D, 0x78, 0x6F, 0x70]).1.started = true ∧
      (0x3C : Nat) < 0x70 ∧
      ((run initialMachine [0x7D, 0x78, 0x6F, 0x70]).1.command = 0 ∨
        ((run initialMachine [0x7D, 0x78, 0x6F, 0x70]).1.command = 2 ∧ (0x3C : Nat) ≠ 0x6F)) ∧
      (((step (run initialMachine [0x7D, 0x78, 0x6F, 0x70]).1 0x3C).1.channelStates
            (run initialMachine [0x7D, 0x78, 0x6F, 0x70]).1.channel).configState =
          ChannelConfigStateIdle ∧
        (∀ c, c < 4 →
          ((step (run initialMachine [0x7D, 0x78, 0x6F, 0x70]).1 0x7E).1.channelStates
            c).configState = ChannelConfigStateIdle) ∧
        ∀ c, ((step (run initialMachine [0x7D, 0x78, 0x6F, 0x70]).1 0x7D).1.channelStates
            c).configState =
          ((run initialMachine [0x7D, 0x78, 0x6F, 0x70]).1.channelStates c).configState) :=
  ⟨by decide, by decide, by decide, Or.inl (by decide),
    C3_thm (run initialMachine [0x7D, 0x78, 0x6F, 0x70]).1 0x3C (by decide) (by decide)
      (by decide) (Or.inl (by decide))⟩

/-- C4 counterexample. With a ProgramChange frame pending on channel 0
(state AwaitingData), the reserved byte 0x7F leaves the classifier state
untouched, and the next data byte 0x30 still completes the previously
pending frame, emitting the Program Change 0xC0 0x30 — so a byte at or above
0x70 does not always pre-empt a half-received data frame. -/
theorem C4_counterexample :
    (run initialMachine [0x7D, 0x78]).1.state = ReceiverState.Data ∧
      (step (run initialMachine [0x7D, 0x78]).1 0x7F).1.state = ReceiverState.Data ∧
      (run initialMachine [0x7D, 0x78, 0x7F, 0x30]).2 = [0xC0, 0x30] := by
  decide

/-- C4 (amended): every byte at or above 0x70 is processed as a command, but
only the two-byte command bytes (outside 0x7C..0x7F) overwrite the pending
channel and command registers and force the classifier to AwaitingData; the
transport and reserved bytes 0x7C, 0x7D, 0x7E, 0x7F leave the classifier
state and the pending registers unchanged, so a half-received data frame
survives them and is completed by the next data byte. -/
theorem C4_thm (m : Machine) (b : Nat) (h70 : 0x70 ≤ b) :
    (b ≠ 0x7C → b ≠ 0x7D → b ≠ 0x7E → b ≠ 0x7F →
      (step m b).1.state = ReceiverState.Data ∧ (step m b).1.channel = b % 4 ∧
        (step m b).1.command = (b / 4) % 4) ∧
      ((b = 0x7C ∨ b = 0x7D ∨ b = 0x7E ∨ b = 0x7F) →
        (step m b).1.state = m.state ∧ (step m b).1.channel = m.channel ∧
          (step m b).1.command = m.command) := by
  constructor
  · intro hC hD hE hF
    unfold step
    rw [if_pos h70, if_neg hD, if_neg hE, if_neg (by tauto)]
    exact ⟨rfl, rfl, rfl⟩
  · intro hlist
    unfold step
    rw [if_pos h70]
    rcases hlist with h | h | h | h
    · subst h
      rw [if_neg (by norm_num), if_neg (by norm_num), if_pos (by norm_num)]
      exact ⟨rfl, rfl, rfl⟩
    · subst h
      rw [if_pos rfl]
      exact ⟨rfl, rfl, rfl⟩
    · subst h
      rw [if_neg (by norm_num), if_pos rfl]
      by_cases hs : m.started = true
      · rw [if_pos hs]
        exact ⟨stopAllNotes_state _, stopAllNotes_channel _, stopAllNotes_command _⟩
      · rw [if_neg hs]
        exact ⟨rfl, rfl, rfl⟩
    · subst h
      rw [if_neg (by norm_num), if_neg (by norm_num), if_pos (by norm_num)]
      exact ⟨rfl, rfl, rfl⟩

/-- C4 witness: the theorem at the freshly constructed machine on the
command byte 0x74. -/
theorem C4_witness :
    (0x70 : Nat) ≤ 0x74 ∧
      (((0x74 : Nat) ≠ 0x7C → (0x74 : Nat) ≠ 0x7D → (0x74 : Nat) ≠ 0x7E →
          (0x74 : Nat) ≠ 0x7F →
          (step initialMachine 0x74).1.state = ReceiverState.Data ∧
            (step initialMachine 0x74).1.channel = 0x74 % 4 ∧
            (step initialMachine 0x74).1.command = (0x74 / 4) % 4) ∧
        (((0x74 : Nat) = 0x7C ∨ (0x74 : Nat) = 0x7D ∨ (0x74 : Nat) = 0x7E ∨
            (0x74 : Nat) = 0x7F) →
          (step initialMachine 0x74).1.state = initialMachine.state ∧
            (step initialMachine 0x74).1.channel = initialMachine.channel ∧
            (step initialMachine 0x74).1.command = initialMachine.command)) :=
  ⟨by decide, C4_thm initialMachine 0x74 (by decide)⟩

/-- C5 (confirmed): a Note command dispatched while started first emits a
Note Off (velocity 0x40) for the previously sounding note if any, then, for
data n other than 0, emits exactly one Note On for n on the channel's MIDI
channel with velocity equal to velocity * 0x7F / 0x6F and stores n as
currentNote; for data 0 it emits only the Note Off (when a note was
sounding) and clears currentNote. -/
theorem C5_thm (m : Machine) (d : Nat) (h1 : m.state = ReceiverState.Data)
    (h2 : m.started = true) (h3 : d < 0x70) (h4 : m.command = 0) :
    (step m d).2 =
        (if (m.channelStates m.channel).currentNote ≠ 0 then
          [0x80 ||| (m.channels m.channel).midiChannel,
            (m.channelStates m.channel).currentNote, 0x40]
        else []) ++
        (if d ≠ 0 then
          [0x90 ||| (m.channels m.channel).midiChannel, d,
            (m.channels m.channel).velocity * 0x7F / 0x6F]
        else []) ∧
      ((step m d).1.channelStates m.channel).currentNote = d := by
  rw [step_data m d h3 h1 h2]
  unfold dispatch
  rw [if_pos (show ({ m with data := d, state := ReceiverState.Command } :
      Machine).command = 0 from h4)]
  obtain ⟨ho, hn, _, _, _⟩ :=
    dispatchN_spec ({ m with data := d, state := ReceiverState.Command } : Machine)
  exact ⟨ho, hn⟩

/-- C5 witness: the theorem in a state with note 0x30 sounding on channel 0,
dispatching a new Note command with data 0x3C. -/
theorem C5_witness :
    (run initialMachine [0x7D, 0x70, 0x30, 0x70]).1.state = ReceiverState.Data ∧
      (run initialMachine [0x7D, 0x70, 0x30, 0x70]).1.started = true ∧
      (0x3C : Nat) < 0x70 ∧
      (run initialMachine [0x7D, 0x70, 0x30, 0x70]).1.command = 0 ∧
      ((step (run initialMachine [0x7D, 0x70, 0x30, 0x70]).1 0x3C).2 =
          (if ((run initialMachine [0x7D, 0x70, 0x30, 0x70]).1.channelStates
                (run initialMachine [0x7D, 0x70, 0x30, 0x70]).1.channel).currentNote ≠ 0 then
            [0x80 ||| ((run initialMachine [0x7D, 0x70, 0x30, 0x70]).1.channels
                (run initialMachine [0x7D, 0x70, 0x30, 0x70]).1.channel).midiChannel,
              ((run initialMachine [0x7D, 0x70, 0x30, 0x70]).1.channelStates
                (run initialMachine [0x7D, 0x70, 0x30, 0x70]).1.channel).currentNote, 0x40]
          else []) ++
          (if (0x3C : Nat) ≠ 0 then
            [0x90 ||| ((run initialMachine [0x7D, 0x70, 0x30, 0x70]).1.channels
                (run initialMachine [0x7D, 0x70, 0x30, 0x70]).1.channel).midiChannel, 0x3C,
              ((run initialMachine [0x7D, 0x70, 0x30, 0x70]).1.channels
                  (run initialMachine
                    [0x7D, 0x70, 0x30, 0x70]).1.channel).velocity * 0x7F / 0x6F]
          else []) ∧
        ((step (run initialMachine [0x7D, 0x70, 0x30, 0x70]).1 0x3C).1.channelStates
          (run initialMachine [0x7D, 0x70, 0x30, 0x70]).1.channel).currentNote = 0x3C) :=
  ⟨by decide, by decide, by decide, by decide,
    C5_thm (run initialMachine [0x7D, 0x70, 0x30, 0x70]).1 0x3C (by decide) (by decide)
      (by decide) (by decide)⟩

/-- C6 (confirmed): a ControlChange command dispatched while started with the
channel's configuration state Idle leaves the machine unchanged apart from
the framing registers, and emits, in Single mode, one CC message with slot
0's number and value data * 127 / 111 when slot 0 is set; in Scaled mode,
one CC message with the slot selected by the high nibble and value
(data mod 16) * 127 / 15 when that slot is set; and no bytes at all when
the resolved slot is unset. -/
theorem C6_thm (m : Machine) (d : Nat) (h1 : m.state = ReceiverState.Data)
    (h2 : m.started = true) (h3 : d < 0x70) (h4 : m.command = 1)
    (h5 : (m.channelStates m.channel).configState = ChannelConfigStateIdle) :
    (step m d).1 = { m with data := d, state := ReceiverState.Command } ∧
      (step m d).2 =
        (if (if (m.channels m.channel).ccMode = ChannelCCMode.Single then
              (m.channels m.channel).ccNumbers 0
            else (m.channels m.channel).ccNumbers ((d / 16) % 16)) ≠ NoCC then
          [0xB0 ||| (m.channels m.channel).midiChannel,
            (if (m.channels m.channel).ccMode = ChannelCCMode.Single then
              (m.channels m.channel).ccNumbers 0
            else (m.channels m.channel).ccNumbers ((d / 16) % 16)),
            (if (m.channels m.channel).ccMode = ChannelCCMode.Single then
              d * 127 / 111
            else (d % 16) * 127 / 15)]
        else []) := by
  rw [step_data m d h3 h1 h2]
  unfold dispatch
  rw [if_neg (show ¬({ m with data := d, state := ReceiverState.Command } :
        Machine).command = 0 from by simp [h4]),
    if_pos (show ({ m with data := d, state := ReceiverState.Command } :
        Machine).command = 1 from h4)]
  rw [dispatchX_idle ({ m with data := d, state := ReceiverState.Command } : Machine)
    (show _ from h5)]
  exact ⟨rfl, rfl⟩

/-- C6 witness: the theorem in a state where channel 0 was configured with a
single CC number 0x20, dispatching the CC value byte 0x6F (maps to 127). -/
theorem C6_witness :
    (run initialMachine
        [0x7D, 0x78, 0x6F, 0x74, 0x15, 0x74, 0x20, 0x74, 0x40, 0x74]).1.state =
        ReceiverState.Data ∧
      (run initialMachine
        [0x7D, 0x78, 0x6F, 0x74, 0x15, 0x74, 0x20, 0x74, 0x40, 0x74]).1.started = true ∧
      (0x6F : Nat) < 0x70 ∧
      (run initialMachine
        [0x7D, 0x78, 0x6F, 0x74, 0x15, 0x74, 0x20, 0x74, 0x40, 0x74]).1.command = 1 ∧
      ((run initialMachine
          [0x7D, 0x78, 0x6F, 0x74, 0x15, 0x74, 0x20, 0x74, 0x40, 0x74]).1.channelStates
        (run initialMachine
          [0x7D, 0x78, 0x6F, 0x74, 0x15, 0x74, 0x20, 0x74, 0x40,
            0x74]).1.channel).configState = ChannelConfigStateIdle ∧
      ((step (run initialMachine
            [0x7D, 0x78, 0x6F, 0x74, 0x15, 0x74, 0x20, 0x74, 0x40, 0x74]).1 0x6F).1 =
          { (run initialMachine
              [0x7D, 0x78, 0x6F, 0x74, 0x15, 0x74, 0x20, 0x74, 0x40, 0x74]).1 with
              data := 0x6F, state := ReceiverState.Command } ∧
        (step (run initialMachine
            [0x7D, 0x78, 0x6F, 0x74, 0x15, 0x74, 0x20, 0x74, 0x40, 0x74]).1 0x6F).2 =
          (if (if ((run initialMachine
                  [0x7D, 0x78, 0x6F, 0x74, 0x15, 0x74, 0x20, 0x74, 0x40, 0x74]).1.channels
                  (run initialMachine
                    [0x7D, 0x78, 0x6F, 0x74, 0x15, 0x74, 0x20, 0x74, 0x40,
                      0x74]).1.channel).ccMode = ChannelCCMode.Single then
                ((run initialMachine
                    [0x7D, 0x78, 0x6F, 0x74, 0x15, 0x74, 0x20, 0x74, 0x40, 0x74]).1.channels
                  (run initialMachine
                    [0x7D, 0x78, 0x6F, 0x74, 0x15, 0x74, 0x20, 0x74, 0x40,
                      0x74]).1.channel).ccNumbers 0
              else
                ((run initialMachine
                    [0x7D, 0x78, 0x6F, 0x74, 0x15, 0x74, 0x20, 0x74, 0x40, 0x74]).1.channels
                  (run initialMachine
                    [0x7D, 0x78, 0x6F, 0x74, 0x15, 0x74, 0x20, 0x74, 0x40,
                      0x74]).1.channel).ccNumbers ((0x6F / 16) % 16)) ≠ NoCC then
            [0xB0 ||| ((run initialMachine
                  [0x7D, 0x78, 0x6F, 0x74, 0x15, 0x74, 0x20, 0x74, 0x40, 0x74]).1.channels
                (run initialMachine
                  [0x7D, 0x78, 0x6F, 0x74, 0x15, 0x74, 0x20, 0x74, 0x40,
                    0x74]).1.channel).midiChannel,
              (if ((run initialMachine
                    [0x7D, 0x78, 0x6F, 0x74, 0x15, 0x74, 0x20, 0x74, 0x40, 0x74]).1.channels
                    (run initialMachine
                      [0x7D, 0x78, 0x6F, 0x74, 0x15, 0x74, 0x20, 0x74, 0x40,
                        0x74]).1.channel).ccMode = ChannelCCMode.Single then
                ((run initialMachine
                    [0x7D, 0x78, 0x6F, 0x74, 0x15, 0x74, 0x20, 0x74, 0x40, 0x74]).1.channels
                  (run initialMachine
                    [0x7D, 0x78, 0x6F, 0x74, 0x15, 0x74, 0x20, 0x74, 0x40,
                      0x74]).1.channel).ccNumbers 0
              else
                ((run initialMachine
                    [0x7D, 0x78, 0x6F, 0x74, 0x15, 0x74, 0x20, 0x74, 0x40, 0x74]).1.channels
                  (run initialMachine
                    [0x7D, 0x78, 0x6F, 0x74, 0x15, 0x74, 0x20, 0x74, 0x40,
                      0x74]).1.channel).ccNumbers ((0x6F / 16) % 16)),
              (if ((run initialMachine
                    [0x7D, 0x78, 0x6F, 0x74, 0x15, 0x74, 0x20, 0x74, 0x40, 0x74]).1.channels
                    (run initialMachine
                      [0x7D, 0x78, 0x6F, 0x74, 0x15, 0x74, 0x20, 0x74, 0x40,
                        0x74]).1.channel).ccMode = ChannelCCMode.Single then
                (0x6F : Nat) * 127 / 111
              else ((0x6F : Nat) % 16) * 127 / 15)]
          else [])) :=
  ⟨by decide, by decide, by decide, by decide, by decide,
    C6_thm (run initialMachine
        [0x7D, 0x78, 0x6F, 0x74, 0x15, 0x74, 0x20, 0x74, 0x40, 0x74]).1 0x6F (by decide)
      (by decide) (by decide) (by decide) (by decide)⟩

/-- C7 (confirmed): processing a Stop byte while started emits exactly one
Note Off for every channel whose currentNote is nonzero, in channel order,
and no bytes for the other channels; it clears every channel's currentNote;
and it is idempotent: a second Stop processed immediately after emits no
MIDI bytes and leaves the machine state unchanged. -/
theorem C7_thm (m : Machine) (h : m.started = true) :
    (step m 0x7E).2 =
        ((if (m.channelStates 0).currentNote ≠ 0 then
          [0x80 ||| (m.channels 0).midiChannel, (m.channelStates 0).currentNote, 0x40]
        else []) ++
        (if (m.channelStates 1).currentNote ≠ 0 then
          [0x80 ||| (m.channels 1).midiChannel, (m.channelStates 1).currentNote, 0x40]
        else []) ++
        (if (m.channelStates 2).currentNote ≠ 0 then
          [0x80 ||| (m.channels 2).midiChannel, (m.channelStates 2).currentNote, 0x40]
        else []) ++
        (if (m.channelStates 3).currentNote ≠ 0 then
          [0x80 ||| (m.channels 3).midiChannel, (m.channelStates 3).currentNote, 0x40]
        else [])) ∧
      (∀ c, c < 4 → ((step m 0x7E).1.channelStates c).currentNote = 0) ∧
      step (step m 0x7E).1 0x7E = ((step m 0x7E).1, []) := by
  rw [step_stop_started m h]
  refine ⟨?_, ?_, ?_⟩
  · rw [stopAllNotes_out]
  · intro c hc
    rw [stopAllNotes_st _ c hc]
  · apply step_stop_stopped
    rw [stopAllNotes_started]

/-- C7 witness: the theorem in a state with notes sounding on channels 0
and 1. -/
theorem C7_witness :
    (run initialMachine [0x7D, 0x70, 0x30, 0x71, 0x45]).1.started = true ∧
      ((step (run initialMachine [0x7D, 0x70, 0x30, 0x71, 0x45]).1 0x7E).2 =
          ((if ((run initialMachine
                [0x7D, 0x70, 0x30, 0x71, 0x45]).1.channelStates 0).currentNote ≠ 0 then
            [0x80 ||| ((run initialMachine
                [0x7D, 0x70, 0x30, 0x71, 0x45]).1.channels 0).midiChannel,
              ((run initialMachine
                [0x7D, 0x70, 0x30, 0x71, 0x45]).1.channelStates 0).currentNote, 0x40]
          else []) ++
          (if ((run initialMachine
                [0x7D, 0x70, 0x30, 0x71, 0x45]).1.channelStates 1).currentNote ≠ 0 then
            [0x80 ||| ((run initialMachine
                [0x7D, 0x70, 0x30, 0x71, 0x45]).1.channels 1).midiChannel,
              ((run initialMachine
                [0x7D, 0x70, 0x30, 0x71, 0x45]).1.channelStates 1).currentNote, 0x40]
          else []) ++
          (if ((run initialMachine
                [0x7D, 0x70, 0x30, 0x71, 0x45]).1.channelStates 2).currentNote ≠ 0 then
            [0x80 ||| ((run initialMachine
                [0x7D, 0x70, 0x30, 0x71, 0x45]).1.channels 2).midiChannel,
              ((run initialMachine
                [0x7D, 0x70, 0x30, 0x71, 0x45]).1.channelStates 2).currentNote, 0x40]
          else []) ++
          (if ((run initialMachine
                [0x7D, 0x70, 0x30, 0x71, 0x45]).1.channelStates 3).currentNote ≠ 0 then
            [0x80 ||| ((run initialMachine
                [0x7D, 0x70, 0x30, 0x71, 0x45]).1.channels 3).midiChannel,
              ((run initialMachine
                [0x7D, 0x70, 0x30, 0x71, 0x45]).1.channelStates 3).currentNote, 0x40]
          else [])) ∧
        (∀ c, c < 4 →
          ((step (run initialMachine
            [0x7D, 0x70, 0x30, 0x71, 0x45]).1 0x7E).1.channelStates c).currentNote = 0) ∧
        step (step (run initialMachine [0x7D, 0x70, 0x30, 0x71, 0x45]).1 0x7E).1 0x7E =
          ((step (run initialMachine [0x7D, 0x70, 0x30, 0x71, 0x45]).1 0x7E).1, [])) :=
  ⟨by decide, C7_thm (run initialMachine [0x7D, 0x70, 0x30, 0x71, 0x45]).1 (by decide)⟩

/-- C8 (confirmed): while the started flag is false, any byte sequence free
of Start bytes emits no MIDI bytes and leaves the flag false, and the frame
classifier — the AwaitingCommand/AwaitingData state plus the pending
channel, command and data registers — always advances as a function of
itself and the input byte alone (the same function regardless of the rest
of the machine state, in particular of the started flag), so decoding
resumes correctly at the first event after the next Start. -/
theorem C8_thm (m : Machine) (bs : List Nat) (h : m.started = false)
    (hbs : ∀ b ∈ bs, b ≠ 0x7D) :
    (run m bs).2 = [] ∧ (run m bs).1.started = false ∧
      ∀ m2 : Machine, ∀ b : Nat, proj (step m2 b).1 = classifierStep (proj m2) b := by
  obtain ⟨h1, h2⟩ := run_not_started m bs h hbs
  exact ⟨h1, h2, fun m2 b => step_proj m2 b⟩

/-- C8 witness: Note, ControlChange and ProgramChange traffic processed from
the initial (stopped) machine emits nothing. -/
theorem C8_witness :
    initialMachine.started = false ∧
      (∀ b ∈ [0x70, 0x3C, 0x74, 0x30, 0x78, 0x10], b ≠ 0x7D) ∧
      ((run initialMachine [0x70, 0x3C, 0x74, 0x30, 0x78, 0x10]).2 = [] ∧
        (run initialMachine [0x70, 0x3C, 0x74, 0x30, 0x78, 0x10]).1.started = false ∧
        ∀ m2 : Machine, ∀ b : Nat, proj (step m2 b).1 = classifierStep (proj m2) b) :=
  ⟨by decide, by decide,
    C8_thm initialMachine [0x70, 0x3C, 0x74, 0x30, 0x78, 0x10] (by decide) (by decide)⟩

/-- C9 counterexample. Channel 0 is mid-configuration and channel 1 has note
0x3C sounding; the interrupting Stop abandons channel 0's sequence but also
clears channel 1's currentNote (emitting its Note Off), so the runtime state
of another channel is changed, contrary to the claim. -/
theorem C9_counterexample :
    ((run initialMachine [0x7D, 0x71, 0x3C, 0x78, 0x6F]).1.channelStates 0).configState ≠
        ChannelConfigStateIdle ∧
      ((run initialMachine [0x7D, 0x71, 0x3C, 0x78, 0x6F]).1.channelStates 1).currentNote =
        0x3C ∧
      ((step (run initialMachine
        [0x7D, 0x71, 0x3C, 0x78, 0x6F]).1 0x7E).1.channelStates 1).currentNote = 0 := by
  decide

/-- C9 (amended): an interrupting Note or ProgramChange event leaves every
channel's settings (midiChannel, ccMode, ccNumbers, velocity) unchanged,
forces the interrupted channel's configuration state to Idle, and leaves the
runtime state of the other three channels untouched; an interrupting Stop
also leaves every channel's settings unchanged, but as part of its normal
processing clears the currentNote and configuration state of all four
channels, not only the configuring one. -/
theorem C9_thm (m : Machine) (d : Nat) (h1 : m.state = ReceiverState.Data)
    (h2 : m.started = true) (h3 : d < 0x70)
    (h4 : m.command = 0 ∨ (m.command = 2 ∧ d ≠ 0x6F)) :
    (step m d).1.channels = m.channels ∧
      ((step m d).1.channelStates m.channel).configState = ChannelConfigStateIdle ∧
      (∀ c', c' ≠ m.channel → (step m d).1.channelStates c' = m.channelStates c') ∧
      (step m 0x7E).1.channels = m.channels ∧
      ∀ c, c < 4 → ((step m 0x7E).1.channelStates c).currentNote = 0 ∧
        ((step m 0x7E).1.channelStates c).configState = ChannelConfigStateIdle := by
  rw [step_data m d h3 h1 h2, step_stop_started m h2]
  have hstop : ∀ c, c < 4 →
      ((stopAllNotes { m with started := false }).1.channelStates c).currentNote = 0 ∧
      ((stopAllNotes { m with started := false }).1.channelStates c).configState =
        ChannelConfigStateIdle := by
    intro c hc
    rw [stopAllNotes_st _ c hc]
    exact ⟨rfl, rfl⟩
  unfold dispatch
  rcases h4 with h4 | ⟨h4, h6F⟩
  · rw [if_pos (show ({ m with data := d, state := ReceiverState.Command } :
        Machine).command = 0 from h4)]
    obtain ⟨_, _, hch, hcs, hoth⟩ :=
      dispatchN_spec ({ m with data := d, state := ReceiverState.Command } : Machine)
    exact ⟨hch, hcs, hoth, stopAllNotes_channels _, hstop⟩
  · rw [if_neg (show ¬({ m with data := d, state := ReceiverState.Command } :
          Machine).command = 0 from by simp [h4]),
      if_neg (show ¬({ m with data := d, state := ReceiverState.Command } :
          Machine).command = 1 from by simp [h4]),
      if_pos (show ({ m with data := d, state := ReceiverState.Command } :
          Machine).command = 2 from h4)]
    obtain ⟨_, hch, hcs, _, hoth⟩ :=
      dispatchY_spec ({ m with data := d, state := ReceiverState.Command } : Machine)
        (show ({ m with data := d, state := ReceiverState.Command } :
          Machine).data ≠ 0x6F from h6F)
    exact ⟨hch, hcs, hoth, stopAllNotes_channels _, hstop⟩

/-- C9 witness: the amended theorem in a state with channel 0
mid-configuration and a pending Note command for channel 0. -/
theorem C9_witness :
    (run initialMachine [0x7D, 0x78, 0x6F, 0x70]).1.state = ReceiverState.Data ∧
      (run initialMachine [0x7D, 0x78, 0x6F, 0x70]).1.started = true ∧
      (0x3C : Nat) < 0x70 ∧
      ((run initialMachine [0x7D, 0x78, 0x6F, 0x70]).1.command = 0 ∨
        ((run initialMachine [0x7D, 0x78, 0x6F, 0x70]).1.command = 2 ∧
          (0x3C : Nat) ≠ 0x6F)) ∧
      ((step (run initialMachine [0x7D, 0x78, 0x6F, 0x70]).1 0x3C).1.channels =
          (run initialMachine [0x7D, 0x78, 0x6F, 0x70]).1.channels ∧
        ((step (run initialMachine [0x7D, 0x78, 0x6F, 0x70]).1 0x3C).1.channelStates
            (run initialMachine [0x7D, 0x78, 0x6F, 0x70]).1.channel).configState =
          ChannelConfigStateIdle ∧
        (∀ c', c' ≠ (run initialMachine [0x7D, 0x78, 0x6F, 0x70]).1.channel →
          (step (run initialMachine [0x7D, 0x78, 0x6F, 0x70]).1 0x3C).1.channelStates c' =
            (run initialMachine [0x7D, 0x78, 0x6F, 0x70]).1.channelStates c') ∧
        (step (run initialMachine [0x7D, 0x78, 0x6F, 0x70]).1 0x7E).1.channels =
          (run initialMachine [0x7D, 0x78, 0x6F, 0x70]).1.channels ∧
        ∀ c, c < 4 →
          ((step (run initialMachine
            [0x7D, 0x78, 0x6F, 0x70]).1 0x7E).1.channelStates c).currentNote = 0 ∧
          ((step (run initialMachine
            [0x7D, 0x78, 0x6F, 0x70]).1 0x7E).1.channelStates c).configState =
            ChannelConfigStateIdle) :=
  ⟨by decide, by decide, by decide, Or.inl (by decide),
    C9_thm (run initialMachine [0x7D, 0x78, 0x6F, 0x70]).1 0x3C (by decide) (by decide)
      (by decide) (Or.inl (by decide))⟩

/-- C10 (confirmed): in every reachable machine state, whenever a channel is
in one of the CC-filling states CC1..CC7, the announced count is between 1
and 6 and dominates the countdown offset, so the write index
configStateTotalCCs - 1 - (configState - CC1) does not underflow and is at
most 6 (hence within the 7-element ccNumbers array); the pending data
register is always below 0x70, so the Scaled-mode read index
(data >> 4) & 0xF is at most 6 as well. -/
theorem C10_thm (m : Machine) (h : Reachable m) :
    (∀ c, c < 4 →
      ChannelConfigStateCC1 ≤ (m.channelStates c).configState →
      (m.channelStates c).configState ≤ ChannelConfigStateCC7 →
        1 ≤ (m.channelStates c).configStateTotalCCs ∧
        (m.channelStates c).configStateTotalCCs ≤ 6 ∧
        (m.channelStates c).configState - ChannelConfigStateCC1 ≤
          (m.channelStates c).configStateTotalCCs - 1 ∧
        (m.channelStates c).configStateTotalCCs - 1 -
          ((m.channelStates c).configState - ChannelConfigStateCC1) ≤ 6) ∧
      m.data < 0x70 ∧ (m.data / 16) % 16 ≤ 6 := by
  obtain ⟨hd, hc⟩ := inv_reachable m h
  refine ⟨fun c _ hlo hhi => ?_, hd, by omega⟩
  have hinv := hc c hlo hhi
  unfold ChannelConfigStateCC1 at hlo
  unfold ChannelConfigStateCC7 at hhi
  unfold ChannelConfigStateCC1 at hinv
  unfold ChannelConfigStateCC1
  omega

/-- C10 witness: the bounds at the concrete reachable CC-filling state in
which channel 0 expects two CC bytes. -/
theorem C10_witness :
    Reachable (run initialMachine [0x7D, 0x78, 0x6F, 0x74, 0x25]).1 ∧
      ((∀ c, c < 4 →
        ChannelConfigStateCC1 ≤
          ((run initialMachine [0x7D, 0x78, 0x6F, 0x74, 0x25]).1.channelStates
            c).configState →
        ((run initialMachine [0x7D, 0x78, 0x6F, 0x74, 0x25]).1.channelStates
            c).configState ≤ ChannelConfigStateCC7 →
          1 ≤ ((run initialMachine [0x7D, 0x78, 0x6F, 0x74, 0x25]).1.channelStates
            c).configStateTotalCCs ∧
          ((run initialMachine [0x7D, 0x78, 0x6F, 0x74, 0x25]).1.channelStates
            c).configStateTotalCCs ≤ 6 ∧
          ((run initialMachine [0x7D, 0x78, 0x6F, 0x74, 0x25]).1.channelStates
              c).configState - ChannelConfigStateCC1 ≤
            ((run initialMachine [0x7D, 0x78, 0x6F, 0x74, 0x25]).1.channelStates
              c).configStateTotalCCs - 1 ∧
          ((run initialMachine [0x7D, 0x78, 0x6F, 0x74, 0x25]).1.channelStates
              c).configStateTotalCCs - 1 -
            (((run initialMachine [0x7D, 0x78, 0x6F, 0x74, 0x25]).1.channelStates
              c).configState - ChannelConfigStateCC1) ≤ 6) ∧
        (run initialMachine [0x7D, 0x78, 0x6F, 0x74, 0x25]).1.data < 0x70 ∧
        ((run initialMachine [0x7D, 0x78, 0x6F, 0x74, 0x25]).1.data / 16) % 16 ≤ 6) :=
  ⟨⟨[0x7D, 0x78, 0x6F, 0x74, 0x25], rfl⟩,
    C10_thm (run initialMachine [0x7D, 0x78, 0x6F, 0x74, 0x25]).1
      ⟨[0x7D, 0x78, 0x6F, 0x74, 0x25], rfl⟩⟩

end LSDJmi
